import Mathlib

set_option linter.unusedVariables false

/-! Shallow embedding of the NewsFlux client core (src/frontend/src/App.js):
the article data model, the trending-feed preprocessing, the scrape handler,
the facet/filter derivations and the per-key summarization state updates. -/

/-- A raw article record as delivered by either feed; every field may be
absent, mirroring the loosely shaped JSON objects the client receives. -/
structure RawArticle where
  headline : Option String
  url : Option String
  source : Option String
  description : Option String
  thumbnail : Option String
  sentiment : Option String
  category : Option String
  relevance_score : Option Nat
deriving DecidableEq

/-- JavaScript truthiness of an optional string: absent and empty are falsy. -/
def strTruthy : Option String → Bool
  | none => false
  | some s => if s = "" then false else true

/-- JavaScript `v || d` where `v` is an optional string. -/
def strOr : Option String → String → String
  | none, d => d
  | some s, d => if s = "" then d else s

/-- JavaScript truthiness of an optional number: absent and 0 are falsy. -/
def natTruthy : Option Nat → Bool
  | none => false
  | some n => if n = 0 then false else true

/-- JavaScript `v || d` where `v` is an optional number. -/
def natOr : Option Nat → Nat → Nat
  | none, d => d
  | some n, d => if n = 0 then d else n

/-- The per-article preprocessing in `fetchTrendingNews` (App.js lines 50-55):
`sentiment: article.sentiment || 'neutral'`, `category: article.category ||
'General'`, `relevance_score: article.relevance_score || 500`. -/
def processTrendingArticle (a : RawArticle) : RawArticle :=
  { a with
    sentiment := some (strOr a.sentiment "neutral")
    category := some (strOr a.category "General")
    relevance_score := some (natOr a.relevance_score 500) }

/-- The value stored per key in the `summaries` map: either the successful
summarization payload or an object with an `error` field.  The numeric
payload fields are passed through unmodified, never computed on. -/
inductive SummaryResult where
  | ok (summary : String) (original_length summary_length : Nat) (compression_ratio : Int)
  | err (message : String)
deriving DecidableEq

/-- The `stats` record built in `handleScrape` from a successful response.
`time` carries `processing_time`, a numeric payload the client only displays. -/
structure ScrapeStats where
  total : Nat
  time : Int
  sources : Nat
  errors : List String
deriving DecidableEq

/-- The body of the POST to `/scrape` assembled by `handleScrape`. -/
structure ScrapeRequest where
  urls : List String
  filters : List String
  categories : List String
  max_results : Nat
  force_refresh : Bool
deriving DecidableEq

/-- A JavaScript-object map keyed by state keys; `objInsert` models the spread
`\x7b...prev, [k]: v\x7d` (the new binding wins on lookup). -/
def objInsert {α : Type} (m : List (String × α)) (k : String) (v : α) :
    List (String × α) :=
  (k, v) :: m

/-- Property access `m[k]`: the most recent binding for `k`, if any. -/
def objLookup {α : Type} (m : List (String × α)) (k : String) : Option α :=
  List.lookup k m

/-- Truthiness of `m[k]` for a boolean-valued map: a missing key is falsy. -/
def boolGet (m : List (String × Bool)) (k : String) : Bool :=
  (objLookup m k).getD false

/-- The component state of `NewsScraperApp` (the `useState` slots). -/
structure AppState where
  urls : List String
  filters : List String
  categories : List String
  articles : List RawArticle
  loading : Bool
  stats : Option ScrapeStats
  error : String
  selectedSource : String
  selectedSentiment : String
  selectedCategory : String
  summarizing : List (String × Bool)
  summaries : List (String × SummaryResult)
  expandedSummaries : List (String × Bool)
  trendingArticles : List RawArticle
  loadingTrending : Bool
deriving DecidableEq

/-- The initial state of the component (the `useState` initial values). -/
def blankState : AppState :=
  { urls := ["https://www.bbc.com"]
    filters := ["technology"]
    categories := ["news"]
    articles := []
    loading := false
    stats := none
    error := ""
    selectedSource := "all"
    selectedSentiment := "all"
    selectedCategory := "all"
    summarizing := []
    summaries := []
    expandedSummaries := []
    trendingArticles := []
    loadingTrending := false }

/-- `fetchTrendingNews` entry: `setLoadingTrending(true)`. -/
def fetchTrendingStart (s : AppState) : AppState :=
  { s with loadingTrending := true }

/-- `fetchTrendingNews` success: stores the preprocessed articles and clears
the loading flag.  No other state slot is written. -/
def fetchTrendingSuccess (s : AppState) (data : List RawArticle) : AppState :=
  { s with
    trendingArticles := data.map processTrendingArticle
    loadingTrending := false }

/-- `fetchTrendingNews` failure: the catch block only logs to the console, the
finally block clears the loading flag; no other state slot is written. -/
def fetchTrendingFailed (s : AppState) : AppState :=
  { s with loadingTrending := false }

/-- `toggleSummary` (App.js lines 109-114): unconditionally flips the truthy
value of `expandedSummaries[stateKey]`. -/
def toggleSummary (s : AppState) (k : String) : AppState :=
  { s with
    expandedSummaries :=
      objInsert s.expandedSummaries k (!(boolGet s.expandedSummaries k)) }

/-- `renderSummarySection` renders the summary panel, and with it the toggle
button, only under the guard `summaries[stateKey] && ...`; a stored object is
always truthy, so the toggle control exists exactly when the key has a
SummaryResult. -/
def summaryToggleRendered (s : AppState) (k : String) : Bool :=
  (objLookup s.summaries k).isSome

/-- The ways a `/summarize` call can fail in `handleSummarize`: a non-success
HTTP status whose parsed body optionally carries a `detail` field, a network
error, or a response whose body fails to parse; the latter two surface the
thrown error's message. -/
inductive SummarizeFailure where
  | httpError (detail : Option String)
  | networkError (message : String)
  | malformedResponse (message : String)
deriving DecidableEq

/-- The message stored for a failed summarization: `errorData.detail ||
'Summarization failed'` for an HTTP error, otherwise the thrown message. -/
def failureMessage : SummarizeFailure → String
  | .httpError d => strOr d "Summarization failed"
  | .networkError m => m
  | .malformedResponse m => m

/-- `handleSummarize` entry: `setSummarizing(prev => (...[stateKey]: true))`. -/
def handleSummarizeStart (s : AppState) (k : String) : AppState :=
  { s with summarizing := objInsert s.summarizing k true }

/-- The net effect of a failed `handleSummarize` call on state: the catch
block stores `\x7b error: err.message \x7d` under the key and forces the key
expanded, and the finally block clears the key's summarizing flag. -/
def handleSummarizeFailed (s : AppState) (k : String) (f : SummarizeFailure) :
    AppState :=
  { s with
    summaries := objInsert s.summaries k (.err (failureMessage f))
    expandedSummaries := objInsert s.expandedSummaries k true
    summarizing := objInsert s.summarizing k false }

/-- The net effect of a successful `handleSummarize` call: stores the payload
under the key, forces the key expanded, clears the key's summarizing flag. -/
def handleSummarizeFulfilled (s : AppState) (k : String) (r : SummaryResult) :
    AppState :=
  { s with
    summaries := objInsert s.summaries k r
    expandedSummaries := objInsert s.expandedSummaries k true
    summarizing := objInsert s.summarizing k false }

/-- The validation error message set by `handleScrape`. -/
def scrapeValidationMsg : String := "Please add at least one URL and one filter"

/-- The generic banner message set when the `/scrape` call fails. -/
def scrapeFailedMsg : String :=
  "Failed to scrape articles. Make sure the backend is running at http://localhost:8000"

/-- Leading and trailing whitespace removed from a character list. -/
def trimChars (l : List Char) : List Char :=
  ((l.dropWhile Char.isWhitespace).reverse.dropWhile Char.isWhitespace).reverse

/-- JavaScript `String.prototype.trim`: strips leading and trailing
whitespace. -/
def jsTrim (s : String) : String := ⟨trimChars s.data⟩

/-- `urls.filter(url => url.trim())`: entries blank after trimming dropped. -/
def validEntries (l : List String) : List String :=
  l.filter (fun u => jsTrim u ≠ "")

/-- The synchronous prefix of `handleScrape` (App.js lines 158-186): validate,
and either set the validation error and return without a request, or clear
`error`/`articles`/`stats`/`summaries`/`expandedSummaries`, set `loading`, and
issue the request built from the trimmed-valid entries. -/
def handleScrapeStart (s : AppState) : AppState × Option ScrapeRequest :=
  if (validEntries s.urls).length = 0 ∨ (validEntries s.filters).length = 0 then
    ({ s with error := scrapeValidationMsg }, none)
  else
    ({ s with
        loading := true
        error := ""
        articles := []
        stats := none
        summaries := []
        expandedSummaries := [] },
      some ⟨validEntries s.urls, validEntries s.filters,
        validEntries s.categories, 30, false⟩)

/-- `handleScrape` success continuation: stores the response articles as-is
(no per-article normalization) and builds `stats`; `errors` defaults to `[]`
when absent. -/
def handleScrapeSuccess (s : AppState) (arts : List RawArticle) (total : Nat)
    (time : Int) (sources : Nat) (errs : Option (List String)) : AppState :=
  { s with
    articles := arts
    stats := some ⟨total, time, sources, errs.getD []⟩
    loading := false }

/-- `handleScrape` catch/finally continuation after the request failed: sets
the generic banner message and clears the loading flag. -/
def handleScrapeNetworkFailed (s : AppState) : AppState :=
  { s with error := scrapeFailedMsg, loading := false }

/-- `allArticles = [...articles, ...trendingArticles]` (App.js line 211). -/
def allArticles (articles trendingArticles : List RawArticle) :
    List RawArticle :=
  articles ++ trendingArticles

/-- `[...new Set(l)]`: the distinct values of `l` in first-seen order, with
`seen` the values already emitted. -/
def firstSeenFrom {α : Type} [DecidableEq α] (seen : List α) :
    List α → List α
  | [] => []
  | x :: xs =>
    if x ∈ seen then firstSeenFrom seen xs
    else x :: firstSeenFrom (x :: seen) xs

/-- `[...new Set(l)]`: distinct values of `l` in first-seen order. -/
def firstSeen {α : Type} [DecidableEq α] (l : List α) : List α :=
  firstSeenFrom [] l

/-- `uniqueSources` (App.js line 213): distinct `source` values, absent ones
included since no truthiness filter is applied. -/
def uniqueSources (l : List RawArticle) : List (Option String) :=
  firstSeen (l.map (·.source))

/-- `uniqueSentiments` (App.js line 214): distinct truthy `sentiment` values;
absent and empty sentiments are dropped by `.filter(s => s)`. -/
def uniqueSentiments (l : List RawArticle) : List (Option String) :=
  firstSeen ((l.map (·.sentiment)).filter strTruthy)

/-- `uniqueCategories` (App.js line 215): distinct truthy `category` values. -/
def uniqueCategories (l : List RawArticle) : List (Option String) :=
  firstSeen ((l.map (·.category)).filter strTruthy)

/-- `allArticles.filter(a => a.source === v).length`, the per-value count the
chart and the filter buttons display for the source facet. -/
def sourceCount (l : List RawArticle) (v : Option String) : Nat :=
  (l.filter (fun a => a.source = v)).length

/-- `allArticles.filter(a => a.sentiment === v).length`. -/
def sentimentCount (l : List RawArticle) (v : Option String) : Nat :=
  (l.filter (fun a => a.sentiment = v)).length

/-- `allArticles.filter(a => a.category === v).length`. -/
def categoryCount (l : List RawArticle) (v : Option String) : Nat :=
  (l.filter (fun a => a.category = v)).length

/-- The per-distinct-value counts of the source facet over a view. -/
def sourceFacetCounts (l : List RawArticle) : List Nat :=
  (uniqueSources l).map (sourceCount l)

/-- The per-distinct-value counts of the sentiment facet over a view. -/
def sentimentFacetCounts (l : List RawArticle) : List Nat :=
  (uniqueSentiments l).map (sentimentCount l)

/-- The per-distinct-value counts of the category facet over a view. -/
def categoryFacetCounts (l : List RawArticle) : List Nat :=
  (uniqueCategories l).map (categoryCount l)

/-- The three facet dimensions of the dashboard. -/
inductive Facet where
  | source
  | sentiment
  | category
deriving DecidableEq

/-- The count displayed on a facet's "All" filter button (App.js lines
650-655, 675-680, 700-705): the source button is labelled
`All (\x7barticles.length\x7d)`; the sentiment and category buttons are
labelled plain `All` with no count. -/
def allButtonCount (s : AppState) : Facet → Option Nat
  | .source => some s.articles.length
  | .sentiment => none
  | .category => none

/-- `filteredArticles` (App.js lines 217-226): three sequential conditional
filters of the scraped collection against the selected facet values. -/
def applyFilters (arts : List RawArticle)
    (selSource selSentiment selCategory : String) : List RawArticle :=
  let f1 := if selSource = "all" then arts
    else arts.filter (fun a => a.source = some selSource)
  let f2 := if selSentiment = "all" then f1
    else f1.filter (fun a => a.sentiment = some selSentiment)
  if selCategory = "all" then f2
  else f2.filter (fun a => a.category = some selCategory)

/-- `filteredArticles` as derived from the component state. -/
def filteredArticles (s : AppState) : List RawArticle :=
  applyFilters s.articles s.selectedSource s.selectedSentiment s.selectedCategory

/-- The conjunctive pass predicate: every selection field that is not `all`
must equal the article's corresponding field. -/
def articlePasses (a : RawArticle) (selSource selSentiment selCategory : String) :
    Bool :=
  (decide (selSource = "all") || decide (a.source = some selSource)) &&
  (decide (selSentiment = "all") || decide (a.sentiment = some selSentiment)) &&
  (decide (selCategory = "all") || decide (a.category = some selCategory))

/-- The fixed-bucket sentiment tallies feeding the pie chart (App.js lines
238-243): `positive`, `negative`, `neutral`, and a `general` bucket counting
`!a.sentiment || a.sentiment === 'General'`. -/
structure ChartSentiment where
  positive : Nat
  negative : Nat
  neutral : Nat
  general : Nat
deriving DecidableEq

/-- `sentimentCounts` computed over a view. -/
def sentimentCounts (l : List RawArticle) : ChartSentiment :=
  { positive := (l.filter (fun a => a.sentiment = some "positive")).length
    negative := (l.filter (fun a => a.sentiment = some "negative")).length
    neutral := (l.filter (fun a => a.sentiment = some "neutral")).length
    general :=
      (l.filter (fun a => !strTruthy a.sentiment
        || decide (a.sentiment = some "General"))).length }

/-- A raw article with every field absent. -/
def rawEmptyArticle : RawArticle :=
  ⟨none, none, none, none, none, none, none, none⟩

/-- A state whose URL list is blank after trimming: validation must fail. -/
def blankUrlState : AppState :=
  { blankState with urls := ["   "] }

/-- A state holding summarization results for a trending-card key and a
non-empty trending collection, used to observe what a new scrape clears. -/
def storedSummariesState : AppState :=
  { blankState with
    summaries := [("T-0", SummaryResult.err "boom")]
    expandedSummaries := [("T-0", true)]
    summarizing := [("A-1", false)]
    trendingArticles := [rawEmptyArticle]
    stats := some ⟨1, 1, 1, []⟩ }

/-! Helper lemmas about the embedded primitives. -/

theorem objLookup_insert_self {α : Type} (m : List (String × α)) (k : String)
    (v : α) : objLookup (objInsert m k v) k = some v := by
  simp [objLookup, objInsert, List.lookup]

theorem objLookup_insert_ne {α : Type} (m : List (String × α)) (k j : String)
    (v : α) (h : j ≠ k) : objLookup (objInsert m k v) j = objLookup m j := by
  have hb : (j == k) = false := beq_false_of_ne h
  simp [objLookup, objInsert, List.lookup, hb]

theorem strOr_eq_default {v : Option String} (d : String)
    (h : strTruthy v = false) : strOr v d = d := by
  cases v with
  | none => rfl
  | some s =>
    by_cases hs : s = ""
    · simp [strOr, hs]
    · simp [strTruthy, hs] at h

theorem natOr_eq_default {v : Option Nat} (d : Nat)
    (h : natTruthy v = false) : natOr v d = d := by
  cases v with
  | none => rfl
  | some n =>
    by_cases hn : n = 0
    · simp [natOr, hn]
    · simp [natTruthy, hn] at h

theorem mem_firstSeenFrom {α : Type} [DecidableEq α] (l : List α) :
    ∀ (seen : List α) (a : α),
      a ∈ firstSeenFrom seen l ↔ (a ∈ l ∧ a ∉ seen) := by
  induction l with
  | nil => intro seen a; simp [firstSeenFrom]
  | cons x xs ih =>
    intro seen a
    by_cases hx : x ∈ seen
    · rw [firstSeenFrom, if_pos hx, ih]
      constructor
      · rintro ⟨ha, hs⟩
        exact ⟨List.mem_cons_of_mem _ ha, hs⟩
      · rintro ⟨ha, hs⟩
        rcases List.mem_cons.mp ha with rfl | h
        · exact absurd hx hs
        · exact ⟨h, hs⟩
    · rw [firstSeenFrom, if_neg hx]
      constructor
      · intro h
        rcases List.mem_cons.mp h with rfl | h2
        · exact ⟨List.mem_cons_self _ _, hx⟩
        · rcases (ih _ _).mp h2 with ⟨ha, hs⟩
          refine ⟨List.mem_cons_of_mem _ ha, fun hc => hs ?_⟩
          exact List.mem_cons_of_mem _ hc
      · rintro ⟨ha, hs⟩
        rcases List.mem_cons.mp ha with rfl | h2
        · exact List.mem_cons_self _ _
        · by_cases hax : a = x
          · subst hax; exact List.mem_cons_self _ _
          · refine List.mem_cons_of_mem _ ((ih _ _).mpr ⟨h2, ?_⟩)
            intro hc
            rcases List.mem_cons.mp hc with h3 | h3
            · exact hax h3
            · exact hs h3

theorem nodup_firstSeenFrom {α : Type} [DecidableEq α] (l : List α) :
    ∀ seen : List α, (firstSeenFrom seen l).Nodup := by
  induction l with
  | nil => intro seen; simp [firstSeenFrom]
  | cons x xs ih =>
    intro seen
    by_cases hx : x ∈ seen
    · rw [firstSeenFrom, if_pos hx]; exact ih seen
    · rw [firstSeenFrom, if_neg hx]
      refine List.nodup_cons.mpr ⟨?_, ih _⟩
      intro hmem
      rcases (mem_firstSeenFrom xs _ x).mp hmem with ⟨_, hs⟩
      exact hs (List.mem_cons_self _ _)

theorem mem_firstSeen {α : Type} [DecidableEq α] (l : List α) (a : α) :
    a ∈ firstSeen l ↔ a ∈ l := by
  rw [firstSeen, mem_firstSeenFrom]
  simp

theorem nodup_firstSeen {α : Type} [DecidableEq α] (l : List α) :
    (firstSeen l).Nodup :=
  nodup_firstSeenFrom l []

theorem length_filter_ne_add_count {α : Type} [BEq α] [LawfulBEq α] [DecidableEq α] (l : List α)
    (v : α) : (l.filter (fun x => x ≠ v)).length + l.count v = l.length := by
  have h := List.length_eq_countP_add_countP (p := fun x => x == v) (l := l)
  simp only [] at h
  have h1 : l.count v = List.countP (fun x => x == v) l := by
    rw [List.count_eq_countP]
  have h2 : (l.filter (fun x => x ≠ v)).length
      = List.countP (fun a => ¬ (a == v)) l := by
    rw [← List.countP_eq_length_filter]
    apply List.countP_congr
    intro x _
    simp
  omega

theorem count_filter_ne {α : Type} [BEq α] [LawfulBEq α] [DecidableEq α] (l : List α) (v x : α)
    (h : v ≠ x) : (l.filter (fun y => y ≠ x)).count v = l.count v := by
  exact List.count_filter (by simpa using h)

theorem sum_map_count_of_nodup {α : Type} [BEq α] [LawfulBEq α] [DecidableEq α] :
    ∀ (d l : List α), d.Nodup → (∀ a, a ∈ d ↔ a ∈ l) →
      (d.map (fun v => l.count v)).sum = l.length := by
  intro d
  induction d with
  | nil =>
    intro l _ hmem
    have hl : l = [] := by
      refine List.eq_nil_iff_forall_not_mem.mpr (fun a ha => ?_)
      exact (List.not_mem_nil a) ((hmem a).mpr ha)
    subst hl; rfl
  | cons v d ih =>
    intro l hnd hmem
    have hvd : v ∉ d := (List.nodup_cons.mp hnd).1
    have hnd' : d.Nodup := (List.nodup_cons.mp hnd).2
    have hmem' : ∀ a, a ∈ d ↔ a ∈ l.filter (fun x => x ≠ v) := by
      intro a
      constructor
      · intro ha
        have hav : a ≠ v := fun hh => hvd (hh ▸ ha)
        have hal : a ∈ l := (hmem a).mp (List.mem_cons_of_mem _ ha)
        exact List.mem_filter.mpr ⟨hal, by simpa using hav⟩
      · intro ha
        rcases List.mem_filter.mp ha with ⟨hal, hav⟩
        have hav' : a ≠ v := by simpa using hav
        rcases List.mem_cons.mp ((hmem a).mpr hal) with rfl | h2
        · exact absurd rfl hav'
        · exact h2
    have hcongr : d.map (fun w => l.count w)
        = d.map (fun w => (l.filter (fun x => x ≠ v)).count w) := by
      refine List.map_congr_left (fun w hw => ?_)
      have hwv : w ≠ v := fun hh => hvd (hh ▸ hw)
      exact (count_filter_ne l w v hwv).symm
    have hih := ih (l.filter (fun x => x ≠ v)) hnd' hmem'
    simp only [List.map_cons, List.sum_cons, hcongr, hih]
    have := length_filter_ne_add_count l v
    omega

theorem length_filter_field_eq_count (l : List RawArticle)
    (f : RawArticle → Option String) (v : Option String) :
    (l.filter (fun a => f a = v)).length = (l.map f).count v := by
  induction l with
  | nil => rfl
  | cons a t ih =>
    simp only [List.map_cons, List.count_cons, List.filter_cons]
    by_cases h : f a = v
    · simp [h, ih]
    · have hne : ¬ (v == f a) = true := by
        simp [beq_iff_eq]
        exact fun hh => h hh.symm
      simp [h, ih, hne]

theorem sum_counts_over_distinct (l : List RawArticle)
    (f : RawArticle → Option String) :
    ((firstSeen (l.map f)).map
        (fun v => (l.filter (fun a => f a = v)).length)).sum = l.length := by
  have h := sum_map_count_of_nodup (firstSeen (l.map f)) (l.map f)
    (nodup_firstSeen _) (fun a => mem_firstSeen _ a)
  have hcongr : (firstSeen (l.map f)).map
      (fun v => (l.filter (fun a => f a = v)).length)
      = (firstSeen (l.map f)).map (fun v => (l.map f).count v) :=
    List.map_congr_left (fun v _ => length_filter_field_eq_count l f v)
  rw [hcongr, h, List.length_map]

theorem sum_counts_over_distinct_truthy (l : List RawArticle)
    (f : RawArticle → Option String) :
    ((firstSeen ((l.map f).filter strTruthy)).map
        (fun v => (l.filter (fun a => f a = v)).length)).sum
      = (l.filter (fun a => strTruthy (f a))).length := by
  have h := sum_map_count_of_nodup (firstSeen ((l.map f).filter strTruthy))
    ((l.map f).filter strTruthy) (nodup_firstSeen _) (fun a => mem_firstSeen _ a)
  have hcongr : (firstSeen ((l.map f).filter strTruthy)).map
      (fun v => (l.filter (fun a => f a = v)).length)
      = (firstSeen ((l.map f).filter strTruthy)).map
        (fun v => ((l.map f).filter strTruthy).count v) := by
    refine List.map_congr_left (fun v hv => ?_)
    have hvmem : v ∈ (l.map f).filter strTruthy := (mem_firstSeen _ v).mp hv
    have htr : strTruthy v = true := (List.mem_filter.mp hvmem).2
    rw [length_filter_field_eq_count l f v]
    exact (List.count_filter htr).symm
  rw [hcongr, h]
  rw [← List.countP_eq_length_filter, ← List.countP_eq_length_filter,
    List.countP_map]
  rfl

theorem sentimentCounts_general_split (l : List RawArticle) :
    (sentimentCounts l).general
      = (l.filter (fun a => !strTruthy a.sentiment)).length
        + (l.filter (fun a => a.sentiment = some "General")).length := by
  induction l with
  | nil => rfl
  | cons a t ih =>
    have hG : strTruthy (some "General") = true := by decide
    simp only [sentimentCounts, List.filter_cons] at ih ⊢
    by_cases h1 : strTruthy a.sentiment
    · by_cases h2 : a.sentiment = some "General"
      · simp [h1, h2, hG] at ih ⊢
        omega
      · simp [h1, h2] at ih ⊢
        omega
    · have h2 : ¬ a.sentiment = some "General" := by
        intro hh
        rw [hh] at h1
        simp [strTruthy] at h1
      simp [h1, h2] at ih ⊢
      omega

/-! Claim theorems. -/

/-- C1 counterexample: for the raw article with every field absent, the
trending-feed preprocessing yields sentiment `"neutral"` and relevance_score
`500`, not `"unclassified"` and `0`, and the scraped feed stores the record
unnormalized (sentiment stays absent), so the claimed uniform normalization is
false at this input. -/
theorem c1_counterexample :
    ¬ ((processTrendingArticle rawEmptyArticle).sentiment = some "unclassified" ∧
       (processTrendingArticle rawEmptyArticle).category = some "General" ∧
       (processTrendingArticle rawEmptyArticle).relevance_score = some 0 ∧
       (handleScrapeSuccess blankState [rawEmptyArticle] 1 1 1 none).articles.map
          (·.sentiment) = [some "unclassified"]) := by
  decide

/-- C1 amended: only the trending feed is normalized, and with different
defaults than claimed: an absent/empty sentiment becomes `"neutral"`, an
absent/empty category becomes `"General"`, an absent (or zero) relevance_score
becomes `500`; the scraped feed is exposed to the UI exactly as received, with
no normalization at all. -/
theorem c1_trending_normalization (s : AppState) (a : RawArticle)
    (hs : strTruthy a.sentiment = false)
    (hc : strTruthy a.category = false)
    (hr : natTruthy a.relevance_score = false) :
    (processTrendingArticle a).sentiment = some "neutral" ∧
    (processTrendingArticle a).category = some "General" ∧
    (processTrendingArticle a).relevance_score = some 500 ∧
    (fetchTrendingSuccess s [a]).trendingArticles = [processTrendingArticle a] ∧
    (handleScrapeSuccess s [a] 1 1 1 none).articles = [a] := by
  refine ⟨?_, ?_, ?_, rfl, rfl⟩
  · simp [processTrendingArticle, strOr_eq_default _ hs]
  · simp [processTrendingArticle, strOr_eq_default _ hc]
  · simp [processTrendingArticle, natOr_eq_default _ hr]

/-- C1 witness: the amended statement evaluated at the all-absent article. -/
theorem c1_trending_normalization_witness :
    (processTrendingArticle rawEmptyArticle).sentiment = some "neutral" ∧
    (processTrendingArticle rawEmptyArticle).category = some "General" ∧
    (processTrendingArticle rawEmptyArticle).relevance_score = some 500 ∧
    (fetchTrendingSuccess blankState [rawEmptyArticle]).trendingArticles
      = [processTrendingArticle rawEmptyArticle] ∧
    (handleScrapeSuccess blankState [rawEmptyArticle] 1 1 1 none).articles
      = [rawEmptyArticle] :=
  c1_trending_normalization blankState rawEmptyArticle (by decide) (by decide)
    (by decide)

/-- C2 counterexample: in the initial state no SummaryResult exists for key
`"A-0"`, yet toggling that key is not a no-op — it records an expanded flag. -/
theorem c2_counterexample :
    ¬ (objLookup blankState.summaries "A-0" = none →
        toggleSummary blankState "A-0" = blankState) := by
  decide

/-- C2 amended: a toggle always flips the key's expanded flag strictly between
shown and collapsed (a missing flag counts as collapsed), even when no
SummaryResult exists for the key — it is not a no-op then, though the toggle
control is only rendered once a result exists; a toggle never changes any
key's pending flag or stored SummaryResult, and leaves every other key's
expanded flag unchanged. -/
theorem c2_toggle_flips (s : AppState) (k : String) :
    boolGet (toggleSummary s k).expandedSummaries k
      = !(boolGet s.expandedSummaries k) ∧
    (∀ j, j ≠ k →
      boolGet (toggleSummary s k).expandedSummaries j
        = boolGet s.expandedSummaries j) ∧
    (toggleSummary s k).summarizing = s.summarizing ∧
    (toggleSummary s k).summaries = s.summaries ∧
    summaryToggleRendered s k = (objLookup s.summaries k).isSome := by
  refine ⟨?_, ?_, rfl, rfl, rfl⟩
  · simp [toggleSummary, boolGet, objLookup_insert_self]
  · intro j hj
    simp [toggleSummary, boolGet, objLookup_insert_ne _ _ _ _ hj]

/-- C2 witness: the amended toggle behavior evaluated in the initial state. -/
theorem c2_toggle_flips_witness :
    boolGet (toggleSummary blankState "A-0").expandedSummaries "T-1"
      = boolGet blankState.expandedSummaries "T-1" :=
  (c2_toggle_flips blankState "A-0").2.1 "T-1" (by decide)

/-- C4 counterexample: the sentiment facet's All button displays no count at
all, so it cannot equal the scraped collection's size. -/
theorem c4_counterexample :
    ¬ (allButtonCount blankState Facet.sentiment
        = some blankState.articles.length) := by
  decide

/-- C4 amended: only the source facet's All button displays a count, and that
count is the scraped collection's size — not the combined view's size whenever
the trending collection is non-empty; the sentiment and category All buttons
display no count. -/
theorem c4_all_pseudo_count (s : AppState) (h : s.trendingArticles ≠ []) :
    allButtonCount s Facet.source = some s.articles.length ∧
    allButtonCount s Facet.source
      ≠ some (allArticles s.articles s.trendingArticles).length ∧
    allButtonCount s Facet.sentiment = none ∧
    allButtonCount s Facet.category = none := by
  refine ⟨rfl, ?_, rfl, rfl⟩
  show ¬ (some s.articles.length
    = some (allArticles s.articles s.trendingArticles).length)
  simp only [allArticles, List.length_append, Option.some.injEq]
  intro heq
  have hlen : s.trendingArticles.length = 0 := by omega
  exact h (List.length_eq_zero.mp hlen)

/-- C4 witness: the amended statement at a state with one trending article. -/
theorem c4_all_pseudo_count_witness :
    allButtonCount storedSummariesState Facet.source
      = some storedSummariesState.articles.length ∧
    allButtonCount storedSummariesState Facet.sentiment = none :=
  ⟨(c4_all_pseudo_count storedSummariesState (by decide)).1,
   (c4_all_pseudo_count storedSummariesState (by decide)).2.2.1⟩

/-- C5: the filter application equals one pass keeping exactly the articles
for which every non-`all` selection field equals the article's corresponding
field; it is an order-preserving sublist of its input, and with all three
fields `all` it returns the scraped collection unchanged.  An empty result is
an ordinary value of the function, not an error. -/
theorem c5_filter_engine (arts : List RawArticle) (ss se sc : String) :
    applyFilters arts ss se sc
      = arts.filter (fun a => articlePasses a ss se sc) ∧
    (applyFilters arts ss se sc).Sublist arts ∧
    applyFilters arts "all" "all" "all" = arts := by
  have hmain : ∀ (s1 s2 s3 : String),
      applyFilters arts s1 s2 s3
        = arts.filter (fun a => articlePasses a s1 s2 s3) := by
    intro s1 s2 s3
    by_cases h1 : s1 = "all" <;> by_cases h2 : s2 = "all" <;>
      by_cases h3 : s3 = "all" <;>
      simp [applyFilters, articlePasses, h1, h2, h3, List.filter_filter,
        Bool.and_comm, Bool.and_left_comm, Bool.and_assoc]
  refine ⟨hmain ss se sc, ?_, by simp [applyFilters]⟩
  rw [hmain ss se sc]
  exact List.filter_sublist _

/-- C6: the combined view is the concatenation of the scraped collection
followed by the trending collection — each collection's internal order
preserved, no deduplication of any kind — and its length is the sum of the
two lengths. -/
theorem c6_combined_view (scraped trending : List RawArticle) :
    allArticles scraped trending = scraped ++ trending ∧
    (allArticles scraped trending).length
      = scraped.length + trending.length := by
  exact ⟨rfl, by simp [allArticles]⟩

/-- C3 counterexample: a combined view holding one scraped article with no
sentiment field has sentiment facet counts summing to 0, not to its length 1:
`uniqueSentiments` filters falsy values out, so the article disappears from
the per-value sentiment counts. -/
theorem c3_counterexample :
    ¬ ((sentimentFacetCounts (allArticles [rawEmptyArticle] [])).sum
        = (allArticles [rawEmptyArticle] []).length) := by
  decide

/-- C3 amended: the source facet counts summed across all distinct values
equal the combined view's length; the sentiment and category facet counts
summed across their distinct values equal only the number of articles whose
field is present and non-empty, so an article lacking a real sentiment does
disappear from the per-value sentiment counts (there is no unclassified
bucket in them); the chart's `general` bucket is what counts the articles
with a falsy sentiment, together with those whose sentiment is `"General"`. -/
theorem c3_facet_count_sums (scraped trending : List RawArticle) :
    (sourceFacetCounts (allArticles scraped trending)).sum
      = (allArticles scraped trending).length ∧
    (sentimentFacetCounts (allArticles scraped trending)).sum
      = ((allArticles scraped trending).filter
          (fun a => strTruthy a.sentiment)).length ∧
    (categoryFacetCounts (allArticles scraped trending)).sum
      = ((allArticles scraped trending).filter
          (fun a => strTruthy a.category)).length ∧
    (sentimentCounts (allArticles scraped trending)).general
      = ((allArticles scraped trending).filter
          (fun a => !strTruthy a.sentiment)).length
        + ((allArticles scraped trending).filter
          (fun a => a.sentiment = some "General")).length := by
  refine ⟨?_, ?_, ?_, sentimentCounts_general_split _⟩
  · simpa [sourceFacetCounts, uniqueSources, sourceCount]
      using sum_counts_over_distinct (allArticles scraped trending) (·.source)
  · simpa [sentimentFacetCounts, uniqueSentiments, sentimentCount]
      using sum_counts_over_distinct_truthy (allArticles scraped trending)
        (·.sentiment)
  · simpa [categoryFacetCounts, uniqueCategories, categoryCount]
      using sum_counts_over_distinct_truthy (allArticles scraped trending)
        (·.category)

/-- C7: after a failed summarization request for a key, the key's stored
SummaryResult is the error record carrying the failure message — the backend
`detail` field when present and non-empty, the fixed fallback
`"Summarization failed"` for a detail-less (or empty-detail) HTTP error, and
the thrown error's own message for a network error or malformed response —
the key's pending flag is stored `false` and its expanded flag is forced
`true`. -/
theorem c7_summarize_rejected (s : AppState) (k : String)
    (f : SummarizeFailure) :
    objLookup (handleSummarizeFailed s k f).summaries k
      = some (SummaryResult.err (failureMessage f)) ∧
    objLookup (handleSummarizeFailed s k f).summarizing k = some false ∧
    objLookup (handleSummarizeFailed s k f).expandedSummaries k = some true ∧
    (∀ d : String, d ≠ "" →
      failureMessage (SummarizeFailure.httpError (some d)) = d) ∧
    failureMessage (SummarizeFailure.httpError none) = "Summarization failed" ∧
    failureMessage (SummarizeFailure.httpError (some ""))
      = "Summarization failed" ∧
    (∀ m : String, failureMessage (SummarizeFailure.networkError m) = m) := by
  refine ⟨objLookup_insert_self _ _ _, objLookup_insert_self _ _ _,
    objLookup_insert_self _ _ _, ?_, rfl, by decide, fun m => rfl⟩
  intro d hd
  simp [failureMessage, strOr, hd]

/-- C7 witness: the rejected transition evaluated for an HTTP error carrying
detail `"boom"` at key `"A-0"` of the initial state. -/
theorem c7_summarize_rejected_witness :
    objLookup
        (handleSummarizeFailed blankState "A-0"
          (SummarizeFailure.httpError (some "boom"))).summaries "A-0"
      = some (SummaryResult.err "boom") := by
  have h := c7_summarize_rejected blankState "A-0"
    (SummarizeFailure.httpError (some "boom"))
  rw [h.1, h.2.2.2.1 "boom" (by decide)]

/-- C8: when the URL list or the filter list is blank after trimming, the
scrape handler issues no request, sets the validation error message, and
leaves the articles collection and stats exactly as they were. -/
theorem c8_validation_guard (s : AppState)
    (h : validEntries s.urls = [] ∨ validEntries s.filters = []) :
    (handleScrapeStart s).2 = none ∧
    (handleScrapeStart s).1.error = scrapeValidationMsg ∧
    (handleScrapeStart s).1.articles = s.articles ∧
    (handleScrapeStart s).1.stats = s.stats := by
  have hcond : (validEntries s.urls).length = 0
      ∨ (validEntries s.filters).length = 0 := by
    rcases h with h | h
    · exact Or.inl (by simp [h])
    · exact Or.inr (by simp [h])
  have hmaster : handleScrapeStart s
      = ({ s with error := scrapeValidationMsg }, none) := by
    simp only [handleScrapeStart]
    rw [if_pos hcond]
  rw [hmaster]
  exact ⟨rfl, rfl, rfl, rfl⟩

/-- C8 witness: the guard evaluated at a state whose only URL is blanks. -/
theorem c8_validation_guard_witness :
    (handleScrapeStart blankUrlState).2 = none ∧
    (handleScrapeStart blankUrlState).1.error = scrapeValidationMsg ∧
    (handleScrapeStart blankUrlState).1.articles = blankUrlState.articles ∧
    (handleScrapeStart blankUrlState).1.stats = blankUrlState.stats :=
  c8_validation_guard blankUrlState (Or.inl (by decide))

/-- C9: a failed trending fetch only resets the trending loading flag — the
previous trending collection and the error banner are untouched, so there is
no user-visible error state; a failed scrape (one that passed validation,
hence was issued) leaves the scraped collection cleared to empty, because
every scrape first resets it, and sets the generic, non-empty banner error
message. -/
theorem c9_fetch_failure_effects (s t : AppState)
    (h : (handleScrapeStart t).2.isSome = true) :
    fetchTrendingFailed (fetchTrendingStart s)
      = { s with loadingTrending := false } ∧
    (fetchTrendingFailed (fetchTrendingStart s)).trendingArticles
      = s.trendingArticles ∧
    (fetchTrendingFailed (fetchTrendingStart s)).error = s.error ∧
    (handleScrapeNetworkFailed (handleScrapeStart t).1).articles = [] ∧
    (handleScrapeNetworkFailed (handleScrapeStart t).1).error
      = scrapeFailedMsg ∧
    (handleScrapeNetworkFailed (handleScrapeStart t).1).error ≠ "" := by
  by_cases hc : (validEntries t.urls).length = 0
      ∨ (validEntries t.filters).length = 0
  · exfalso
    have : (handleScrapeStart t).2 = none := by
      simp only [handleScrapeStart]
      rw [if_pos hc]
    rw [this] at h
    simp at h
  · have hmaster : (handleScrapeStart t).1
        = { t with
            loading := true
            error := ""
            articles := []
            stats := none
            summaries := []
            expandedSummaries := [] } := by
      simp only [handleScrapeStart]
      rw [if_neg hc]
    rw [hmaster]
    have hne : scrapeFailedMsg ≠ "" := by decide
    exact ⟨rfl, rfl, rfl, rfl, rfl, hne⟩

/-- C9 witness: the failure effects evaluated at a state holding a trending
collection (trending side) and the initial state (scrape side). -/
theorem c9_fetch_failure_effects_witness :
    (fetchTrendingFailed
        (fetchTrendingStart storedSummariesState)).trendingArticles
      = storedSummariesState.trendingArticles ∧
    (handleScrapeNetworkFailed (handleScrapeStart blankState).1).articles
      = [] :=
  ⟨(c9_fetch_failure_effects storedSummariesState blankState (by decide)).2.1,
   (c9_fetch_failure_effects storedSummariesState blankState
      (by decide)).2.2.2.1⟩

/-- C10: every scrape that passes validation clears the summaries map and the
expanded-flags map (along with articles and stats) before the request is
issued — so every stored SummaryResult and expansion flag, for any key
including trending `"T-"` keys, reads as absent afterward, and stays cleared
even if the request then fails — while the trending article collection is
left unchanged. -/
theorem c10_scrape_clears_summary_state (s : AppState)
    (h : (handleScrapeStart s).2.isSome = true) :
    (handleScrapeStart s).1.summaries = [] ∧
    (handleScrapeStart s).1.expandedSummaries = [] ∧
    (handleScrapeStart s).1.articles = [] ∧
    (handleScrapeStart s).1.stats = none ∧
    (handleScrapeStart s).1.trendingArticles = s.trendingArticles ∧
    (∀ k : String,
      objLookup (handleScrapeStart s).1.summaries k = none ∧
      objLookup (handleScrapeStart s).1.expandedSummaries k = none) ∧
    (handleScrapeNetworkFailed (handleScrapeStart s).1).summaries = [] ∧
    (handleScrapeNetworkFailed (handleScrapeStart s).1).expandedSummaries
      = [] := by
  by_cases hc : (validEntries s.urls).length = 0
      ∨ (validEntries s.filters).length = 0
  · exfalso
    have : (handleScrapeStart s).2 = none := by
      simp only [handleScrapeStart]
      rw [if_pos hc]
    rw [this] at h
    simp at h
  · have hmaster : (handleScrapeStart s).1
        = { s with
            loading := true
            error := ""
            articles := []
            stats := none
            summaries := []
            expandedSummaries := [] } := by
      simp only [handleScrapeStart]
      rw [if_neg hc]
    rw [hmaster]
    exact ⟨rfl, rfl, rfl, rfl, rfl, fun k => ⟨rfl, rfl⟩, rfl, rfl⟩

/-- C10 witness: scraping from a state with a stored trending-key summary
discards it while the trending collection survives. -/
theorem c10_scrape_clears_summary_state_witness :
    (handleScrapeStart storedSummariesState).1.summaries = [] ∧
    objLookup (handleScrapeStart storedSummariesState).1.summaries "T-0"
      = none ∧
    (handleScrapeStart storedSummariesState).1.trendingArticles
      = storedSummariesState.trendingArticles :=
  ⟨(c10_scrape_clears_summary_state storedSummariesState (by decide)).1,
   ((c10_scrape_clears_summary_state storedSummariesState
      (by decide)).2.2.2.2.2.1 "T-0").1,
   (c10_scrape_clears_summary_state storedSummariesState
      (by decide)).2.2.2.2.1⟩
